import Mathlib

/-!
Shallow embedding of `src/translate.rs` of FerriteTranslator, a small
interactive chat client.  The program seeds a conversation history with four
system messages, then loops: it reads a line, dispatches on the literal
commands "exit", "reset" and "v", and otherwise appends the line as a User
message, sends the whole history to a chat-completion endpoint, prints the
first choice of the answer and appends it to the history.

Modelling decisions, each tied to the source:
  * `ChatCompletionMessage`, `ChatCompletionMessageRole`, `ChatCompletion`
    and its choices mirror the `openai` crate types used by the program.
  * The network call `ChatCompletion::builder(model, messages.clone())
    .create().await??` is abstracted as a function
    `Endpoint := ChatRequest → Except String ChatCompletion`; both the
    transport error and the API-level error collapse into `Except.error`.
  * `ask` mirrors the Rust fn `ask(&mut Vec<..>, String, &str)`.  The Rust
    function mutates the vector through `&mut`; the embedding returns the
    final vector (`history`), the list of requests actually sent (`sent`,
    always a singleton) and the `Result` value (`result`).
  * `step` is one iteration of the `loop` in `main`: the `match &input[..]`
    on "exit" / "reset" / "v" / catch-all, written as the equivalent chain
    of exact string comparisons.  It returns the loop outcome, the lines
    printed, and the requests sent during the iteration.
  * `runLoop` folds `step` over a script of `(input line, editor text)`
    pairs; the editor text is consumed only when the line is "v", matching
    `Editor::new("Prompt:").prompt()`.  `StepOutcome.exited` models
    `return Ok(())` (process exit code 0), `StepOutcome.errored` models an
    `Err` propagated by `?` through `main` (nonzero exit).
  * `resolveKey` mirrors `args.key.unwrap_or(env::var("OPENAI_API_KEY")
    .with_context(..)?)`.  In Rust the argument of `unwrap_or` is evaluated
    eagerly, so the `?` on the environment lookup fires before the flag
    value is consulted at all; the embedding therefore inspects the
    environment variable first.
  * `parseModelFlag` mirrors clap parsing of the `--model` value-enum flag
    with `default_value = "gpt-3.5-turbo"`: the outer `Option` is parse
    success (clap exits on an unknown name), the inner `Option Model` is the
    `Args.model` field, filled from the default when the flag is absent.
-/

namespace FerriteTranslator

/-- Role tag of a chat message, from the `openai` crate. -/
inductive ChatCompletionMessageRole where
  | System
  | User
  | Assistant
deriving DecidableEq

/-- One chat message: role, content, optional name, as in the `openai` crate. -/
structure ChatCompletionMessage where
  role : ChatCompletionMessageRole
  content : String
  name : Option String
deriving DecidableEq

/-- The closed model enumeration `enum Model` of the source. -/
inductive Model where
  | Gpt_4
  | Gpt_4_0314
  | Gpt_4_32k
  | Gpt_4_32k_0314
  | Gpt_3_5_Turbo
  | Gpt_3_5_Turbo_0301
deriving DecidableEq

/-- The source's `impl Model { fn as_str(&self) -> &'static str }`. -/
def Model.as_str : Model → String
  | .Gpt_4 => "gpt-4"
  | .Gpt_4_0314 => "gpt-4-0314"
  | .Gpt_4_32k => "gpt-4-32k"
  | .Gpt_4_32k_0314 => "gpt-4-32k-0314"
  | .Gpt_3_5_Turbo => "gpt-3.5-turbo"
  | .Gpt_3_5_Turbo_0301 => "gpt-3.5-turbo-0301"

/-- The clap value-enum names attached to the `Model` variants by
`#[clap(name = "...")]`, as a lookup from the command-line string. -/
def modelFromName (s : String) : Option Model :=
  if s = "gpt-4" then some .Gpt_4
  else if s = "gpt-4-0314" then some .Gpt_4_0314
  else if s = "gpt-4-32k" then some .Gpt_4_32k
  else if s = "gpt-4-32k-0314" then some .Gpt_4_32k_0314
  else if s = "gpt-3.5-turbo" then some .Gpt_3_5_Turbo
  else if s = "gpt-3.5-turbo-0301" then some .Gpt_3_5_Turbo_0301
  else none

/-- Clap parsing of the `--model` flag with `default_value = "gpt-3.5-turbo"`:
when the flag is absent the default string is parsed through the value enum
and stored in the `Option Model` field; when it is present, an unknown name
makes parsing fail (outer `none`, clap exits before `main`'s body runs). -/
def parseModelFlag (cli : Option String) : Option (Option Model) :=
  match cli with
  | none => (modelFromName "gpt-3.5-turbo").map some
  | some s => (modelFromName s).map some

/-- Startup key resolution, mirroring
`args.key.unwrap_or(env::var("OPENAI_API_KEY").with_context(..)?)`.
Rust evaluates the argument of `unwrap_or` eagerly, so the environment
lookup runs first and its `?` aborts `main` when the variable is unset,
regardless of the `--key` flag. -/
def resolveKey (argKey : Option String) (envKey : Option String) :
    Except String String :=
  match envKey with
  | none => .error "You need to set API key to the \x60OPENAI_API_KEY\x60"
  | some v => .ok (argKey.getD v)

/-- Default content of the first seeded system message (verbatim, including
the source's typos). -/
def generalDefault : String :=
  "Plase translate the following statement from Japanese to English. The answer should be only the English stentences."

/-- The User message pushed by `ask` for an input line. -/
def userMessage (input : String) : ChatCompletionMessage :=
  ⟨.User, input, none⟩

/-- The four system messages seeding `messages` in `main`; the first one is
`args.general.unwrap_or(..)`, so a supplied general prompt replaces it. -/
def seedMessages (general : Option String) : List ChatCompletionMessage :=
  [⟨.System, general.getD generalDefault, none⟩,
   ⟨.System, "The user can reset the current state of the chat by inputting \x27reset\x27.", none⟩,
   ⟨.System, "The user can activate the editor by entering \x27v\x27, allowing them to input multiple lines of prompts.", none⟩,
   ⟨.System, "To terminate, the user needs to input \"exit\".", none⟩]

/-- A chat-completion request: the model string and the message list passed
to `ChatCompletion::builder(model, messages.clone())`. -/
structure ChatRequest where
  model : String
  messages : List ChatCompletionMessage
deriving DecidableEq

/-- One choice of a completion response, carrying a message. -/
structure ChatCompletionChoice where
  message : ChatCompletionMessage
deriving DecidableEq

/-- A completion response: a list of choices. -/
structure ChatCompletion where
  choices : List ChatCompletionChoice
deriving DecidableEq

/-- The remote endpoint: network errors and API errors are `Except.error`. -/
abbrev Endpoint := ChatRequest → Except String ChatCompletion

/-- Observable effect of one call to `ask`: the final state of the `&mut`
message vector, the requests sent over the wire, and the returned value. -/
structure AskResult where
  history : List ChatCompletionMessage
  sent : List ChatRequest
  result : Except String ChatCompletionMessage

/-- The source's `async fn ask`: push a User message carrying the input,
send the whole (cloned) message vector, and return the first choice's
message, or an error when the call fails or no choice is present. -/
def ask (endpoint : Endpoint) (messages : List ChatCompletionMessage)
    (input : String) (model : String) : AskResult :=
  let messages := messages ++ [userMessage input]
  let req : ChatRequest := ⟨model, messages⟩
  ⟨messages, [req],
    match endpoint req with
    | .error e => .error e
    | .ok chat_completion =>
      match chat_completion.choices.head? with
      | none => .error "Can\x27t read ChatGPT output"
      | some choice => .ok choice.message⟩

/-- The `Debug` rendering of a role, as printed by `println!("{:?}: {}", ..)`. -/
def roleDebug : ChatCompletionMessageRole → String
  | .System => "System"
  | .User => "User"
  | .Assistant => "Assistant"

/-- The line printed after a successful turn:
`println!("{:?}: {}", &answer.role, &answer.content.trim())`. -/
def printAnswer (answer : ChatCompletionMessage) : String :=
  roleDebug answer.role ++ ": " ++ answer.content.trim

/-- Outcome of one loop iteration: continue with a new history, exit with
success (`return Ok(())`), or abort with a propagated error (`?`). -/
inductive StepOutcome where
  | cont (history : List ChatCompletionMessage)
  | exited
  | errored (history : List ChatCompletionMessage) (err : String)
deriving DecidableEq

/-- The body shared by the "v" arm and the catch-all arm of the loop:
call `ask`, and on success print the answer and push it onto the history. -/
def userTurn (endpoint : Endpoint) (history : List ChatCompletionMessage)
    (text : String) (model : String) :
    StepOutcome × List String × List ChatRequest :=
  let r := ask endpoint history text model
  match r.result with
  | .ok answer => (.cont (r.history ++ [answer]), [printAnswer answer], r.sent)
  | .error e => (.errored r.history e, [], r.sent)

/-- One iteration of the loop in `main`: the `match &input[..]` over the
exact literals "exit", "reset" and "v", with the catch-all user turn.
`editorText` is what `Editor::new("Prompt:").prompt()` yields, consumed only
in the "v" arm.  The three components are the outcome, the printed lines and
the requests sent. -/
def step (endpoint : Endpoint) (initial_state : List ChatCompletionMessage)
    (model : String) (history : List ChatCompletionMessage)
    (input : String) (editorText : String) :
    StepOutcome × List String × List ChatRequest :=
  if input = "exit" then (.exited, ["Bye!"], [])
  else if input = "reset" then (.cont initial_state, [], [])
  else if input = "v" then userTurn endpoint history editorText model
  else userTurn endpoint history input model

/-- Run the loop over a finite script of `(input line, editor text)` pairs,
threading the history; stops early on exit or error. -/
def runLoop (endpoint : Endpoint) (initial_state : List ChatCompletionMessage)
    (model : String) :
    List ChatCompletionMessage → List (String × String) → StepOutcome
  | history, [] => .cont history
  | history, (input, ed) :: rest =>
    match (step endpoint initial_state model history input ed).1 with
    | .cont h2 => runLoop endpoint initial_state model h2 rest
    | .exited => .exited
    | .errored h2 e => .errored h2 e

/-- Histories reachable by the loop from the startup seed, for a fixed
endpoint, general prompt and model.  `initial_state` in the source is
`messages.clone()` taken right after seeding, hence `seedMessages general`
in the `step` call. -/
inductive Reachable (endpoint : Endpoint) (general : Option String)
    (model : String) : List ChatCompletionMessage → Prop
  | init : Reachable endpoint general model (seedMessages general)
  | next (h h2 : List ChatCompletionMessage) (input ed : String)
      (out : List String) (sent : List ChatRequest)
      (prev : Reachable endpoint general model h)
      (hstep : step endpoint (seedMessages general) model h input ed =
        (.cont h2, out, sent)) :
      Reachable endpoint general model h2

/-- Claim C2, failing input: with the flag `--key abc` supplied and the
environment variable `OPENAI_API_KEY` unset, startup nevertheless fails with
the environment-variable error, because `unwrap_or` evaluates its argument
eagerly and the `?` on `env::var` fires before the flag is consulted. -/
theorem key_flag_requires_env :
    resolveKey (some "abc") none =
      Except.error "You need to set API key to the \x60OPENAI_API_KEY\x60" := rfl

/-- Claim C3: on every turn the single request sent to the endpoint carries
the model string and exactly the full in-memory history at the moment of
sending, namely the prior history with the just-appended User message, with
no truncation or reordering; equivalently, the sent payload's message list
equals the mutated history `ask` leaves behind. -/
theorem payload_is_full_history (endpoint : Endpoint)
    (h : List ChatCompletionMessage) (input model : String) :
    (ask endpoint h input model).sent =
      [⟨model, h ++ [userMessage input]⟩] ∧
    (ask endpoint h input model).sent.map ChatRequest.messages =
      [(ask endpoint h input model).history] := by
  constructor <;> rfl

/-- Claim C6: on the input line "exit" the loop prints "Bye!" and returns
`Ok(())` (exit code 0) without sending any request and without touching the
history, for every endpoint, general prompt, model, history and editor text;
in particular as the very first input after startup. -/
theorem exit_prints_bye (endpoint : Endpoint) (general : Option String)
    (model : String) (h : List ChatCompletionMessage) (ed : String) :
    step endpoint (seedMessages general) model h "exit" ed =
      (.exited, ["Bye!"], []) ∧
    runLoop endpoint (seedMessages general) model (seedMessages general)
      [("exit", ed)] = .exited := by
  constructor <;> rfl

/-- Claim C1 is false as stated: with a stub endpoint answering every request
with zero choices, one turn on the input "hi" from the seeded history does
not leave the history unchanged (the pushed User message stays). -/
theorem empty_choices_history_changed :
    ¬ ((ask (fun _ => Except.ok ⟨[]⟩) (seedMessages none) "hi"
        "gpt-3.5-turbo").history = seedMessages none) := by
  intro hcontr
  have hlen := congrArg List.length hcontr
  simp [ask, seedMessages] at hlen

/-- Claim C1 as amended: when the endpoint answers the turn's request with
zero choices, `ask` returns the error "Can't read ChatGPT output" (which the
loop propagates, terminating the process), and the history at that point is
the previous history with exactly the User message of the failed turn
appended — nothing else is appended and nothing is rolled back. -/
theorem empty_choices_error (endpoint : Endpoint)
    (h : List ChatCompletionMessage) (input model : String)
    (hcc : endpoint ⟨model, h ++ [userMessage input]⟩ = Except.ok ⟨[]⟩) :
    (ask endpoint h input model).result =
      Except.error "Can\x27t read ChatGPT output" ∧
    (ask endpoint h input model).history = h ++ [userMessage input] := by
  refine ⟨?_, rfl⟩
  simp [ask, hcc]

/-- Witness for `empty_choices_error` at a concrete stub endpoint, empty
input history, input "hi" and model "gpt-3.5-turbo". -/
theorem empty_choices_error_witness :
    ((fun _ => Except.ok ⟨[]⟩ : Endpoint)
        ⟨"gpt-3.5-turbo", [] ++ [userMessage "hi"]⟩ = Except.ok ⟨[]⟩) ∧
    ((ask (fun _ => Except.ok ⟨[]⟩) [] "hi" "gpt-3.5-turbo").result =
        Except.error "Can\x27t read ChatGPT output" ∧
      (ask (fun _ => Except.ok ⟨[]⟩) [] "hi" "gpt-3.5-turbo").history =
        [] ++ [userMessage "hi"]) :=
  ⟨rfl, empty_choices_error (fun _ => Except.ok ⟨[]⟩) [] "hi" "gpt-3.5-turbo" rfl⟩

/-- Claim C5: a non-command input line (not "exit", "reset" or "v") makes the
loop run the catch-all user turn; `ask` appends exactly one User message
carrying the line's text, the request sent already contains that message (so
the append happens before sending), and when the endpoint's response has a
first choice, `ask` returns that choice's message. -/
theorem noncommand_appends_user (endpoint : Endpoint)
    (initial_state h : List ChatCompletionMessage)
    (model input ed : String) (cc : ChatCompletion)
    (choice : ChatCompletionChoice)
    (h1 : input ≠ "exit") (h2 : input ≠ "reset") (h3 : input ≠ "v")
    (hcc : endpoint ⟨model, h ++ [userMessage input]⟩ = Except.ok cc)
    (hch : cc.choices.head? = some choice) :
    (ask endpoint h input model).history = h ++ [userMessage input] ∧
    (ask endpoint h input model).sent =
      [⟨model, h ++ [userMessage input]⟩] ∧
    step endpoint initial_state model h input ed =
      userTurn endpoint h input model ∧
    (ask endpoint h input model).result = Except.ok choice.message := by
  refine ⟨rfl, rfl, ?_, ?_⟩
  · simp [step, h1, h2, h3]
  · simp [ask, hcc, hch]

/-- Witness for `noncommand_appends_user`: the input "hello" against a stub
endpoint whose single choice is an Assistant message "ok". -/
theorem noncommand_appends_user_witness :
    ("hello" ≠ "exit") ∧ ("hello" ≠ "reset") ∧ ("hello" ≠ "v") ∧
    ((fun _ => Except.ok ⟨[⟨⟨.Assistant, "ok", none⟩⟩]⟩ : Endpoint)
        ⟨"gpt-3.5-turbo", [] ++ [userMessage "hello"]⟩ =
      Except.ok ⟨[⟨⟨.Assistant, "ok", none⟩⟩]⟩) ∧
    ((ChatCompletion.mk [⟨⟨.Assistant, "ok", none⟩⟩]).choices.head? =
      some ⟨⟨.Assistant, "ok", none⟩⟩) ∧
    ((ask (fun _ => Except.ok ⟨[⟨⟨.Assistant, "ok", none⟩⟩]⟩) [] "hello"
          "gpt-3.5-turbo").history = [] ++ [userMessage "hello"] ∧
      (ask (fun _ => Except.ok ⟨[⟨⟨.Assistant, "ok", none⟩⟩]⟩) [] "hello"
          "gpt-3.5-turbo").sent =
        [⟨"gpt-3.5-turbo", [] ++ [userMessage "hello"]⟩] ∧
      step (fun _ => Except.ok ⟨[⟨⟨.Assistant, "ok", none⟩⟩]⟩) [] "gpt-3.5-turbo"
          [] "hello" "" =
        userTurn (fun _ => Except.ok ⟨[⟨⟨.Assistant, "ok", none⟩⟩]⟩) [] "hello"
          "gpt-3.5-turbo" ∧
      (ask (fun _ => Except.ok ⟨[⟨⟨.Assistant, "ok", none⟩⟩]⟩) [] "hello"
          "gpt-3.5-turbo").result =
        Except.ok (ChatCompletionChoice.mk ⟨.Assistant, "ok", none⟩).message) :=
  ⟨by decide, by decide, by decide, rfl, rfl,
    noncommand_appends_user (fun _ => Except.ok ⟨[⟨⟨.Assistant, "ok", none⟩⟩]⟩)
      [] [] "gpt-3.5-turbo" "hello" "" ⟨[⟨⟨.Assistant, "ok", none⟩⟩]⟩
      ⟨⟨.Assistant, "ok", none⟩⟩ (by decide) (by decide) (by decide) rfl rfl⟩

/-- Claim C7: on the input line "v" the loop runs the same user-turn body on
the text the editor yields — one User message appended, then the completion
step, the printed answer and the append of the response — and, when that
text is itself not a command literal, the whole iteration is equal to the
iteration a normal single-line input of the same text produces. -/
theorem v_editor_turn (endpoint : Endpoint)
    (initial_state h : List ChatCompletionMessage)
    (model ed ed2 : String)
    (h1 : ed ≠ "exit") (h2 : ed ≠ "reset") (h3 : ed ≠ "v") :
    step endpoint initial_state model h "v" ed =
      userTurn endpoint h ed model ∧
    step endpoint initial_state model h "v" ed =
      step endpoint initial_state model h ed ed2 := by
  have hv : step endpoint initial_state model h "v" ed =
      userTurn endpoint h ed model := by
    simp [step]
  refine ⟨hv, ?_⟩
  rw [hv]
  simp [step, h1, h2, h3]

/-- Witness for `v_editor_turn`: a multi-line editor text. -/
theorem v_editor_turn_witness :
    ("line one\nline two" ≠ "exit") ∧ ("line one\nline two" ≠ "reset") ∧
    ("line one\nline two" ≠ "v") ∧
    (step (fun _ => Except.error "net") [] "gpt-3.5-turbo" [] "v"
        "line one\nline two" =
      userTurn (fun _ => Except.error "net") [] "line one\nline two"
        "gpt-3.5-turbo" ∧
    step (fun _ => Except.error "net") [] "gpt-3.5-turbo" [] "v"
        "line one\nline two" =
      step (fun _ => Except.error "net") [] "gpt-3.5-turbo" []
        "line one\nline two" "") :=
  ⟨by decide, by decide, by decide,
    v_editor_turn (fun _ => Except.error "net") [] [] "gpt-3.5-turbo"
      "line one\nline two" "" (by decide) (by decide) (by decide)⟩

/-- Claim C10: dispatch is by exact literal equality on the whole line: every
input that is not character-for-character "exit", "reset" or "v" is handled
as a user turn and forwarded verbatim as the appended User message; and text
yielded by the "v" editor that equals "exit" or "reset" is likewise a user
turn, never a command. -/
theorem dispatch_exact_literal (endpoint : Endpoint)
    (initial_state h : List ChatCompletionMessage)
    (model input ed : String)
    (h1 : input ≠ "exit") (h2 : input ≠ "reset") (h3 : input ≠ "v") :
    step endpoint initial_state model h input ed =
      userTurn endpoint h input model ∧
    (ask endpoint h input model).history = h ++ [userMessage input] ∧
    step endpoint initial_state model h "v" "exit" =
      userTurn endpoint h "exit" model ∧
    step endpoint initial_state model h "v" "reset" =
      userTurn endpoint h "reset" model := by
  refine ⟨?_, rfl, ?_, ?_⟩
  · simp [step, h1, h2, h3]
  · simp [step]
  · simp [step]

/-- Witness for `dispatch_exact_literal`: "exit " with a trailing space is
not the exit command. -/
theorem dispatch_exact_literal_witness :
    ("exit " ≠ "exit") ∧ ("exit " ≠ "reset") ∧ ("exit " ≠ "v") ∧
    (step (fun _ => Except.error "net") [] "gpt-3.5-turbo" [] "exit " "" =
      userTurn (fun _ => Except.error "net") [] "exit " "gpt-3.5-turbo" ∧
    (ask (fun _ => Except.error "net") [] "exit " "gpt-3.5-turbo").history =
      [] ++ [userMessage "exit "] ∧
    step (fun _ => Except.error "net") [] "gpt-3.5-turbo" [] "v" "exit" =
      userTurn (fun _ => Except.error "net") [] "exit" "gpt-3.5-turbo" ∧
    step (fun _ => Except.error "net") [] "gpt-3.5-turbo" [] "v" "reset" =
      userTurn (fun _ => Except.error "net") [] "reset" "gpt-3.5-turbo") :=
  ⟨by decide, by decide, by decide,
    dispatch_exact_literal (fun _ => Except.error "net") [] [] "gpt-3.5-turbo"
      "exit " "" (by decide) (by decide) (by decide)⟩

/-- Claim C9: whenever clap's parsing of the `--model` flag succeeds (with
the flag absent it always does, via the default "gpt-3.5-turbo"), the parsed
`Args.model` field is `some`, so `args.model.unwrap()` cannot panic
(`Option.getD` under `isSome` models the unwrap), and the unwrapped model's
wire string is one of the six closed enumeration identifiers. -/
theorem model_unwrap_safe (cli : Option String) (args_model : Option Model)
    (hparse : parseModelFlag cli = some args_model) :
    args_model.isSome = true ∧
    (args_model.getD Model.Gpt_3_5_Turbo).as_str ∈
      ["gpt-4", "gpt-4-0314", "gpt-4-32k", "gpt-4-32k-0314",
        "gpt-3.5-turbo", "gpt-3.5-turbo-0301"] := by
  have hsome : args_model.isSome = true := by
    cases cli with
    | none =>
      simp [parseModelFlag, modelFromName] at hparse
      rw [← hparse]
      rfl
    | some s =>
      simp [parseModelFlag] at hparse
      obtain ⟨m, _, hm⟩ := hparse
      rw [← hm]
      rfl
  refine ⟨hsome, ?_⟩
  cases args_model with
  | none => simp at hsome
  | some m => cases m <;> simp [Model.as_str]

/-- Witness for `model_unwrap_safe`: the flag absent, parsed to the default. -/
theorem model_unwrap_safe_witness :
    (parseModelFlag none = some (some Model.Gpt_3_5_Turbo)) ∧
    ((some Model.Gpt_3_5_Turbo : Option Model).isSome = true ∧
      ((some Model.Gpt_3_5_Turbo : Option Model).getD
          Model.Gpt_3_5_Turbo).as_str ∈
        ["gpt-4", "gpt-4-0314", "gpt-4-32k", "gpt-4-32k-0314",
          "gpt-3.5-turbo", "gpt-3.5-turbo-0301"]) :=
  ⟨rfl, model_unwrap_safe none (some Model.Gpt_3_5_Turbo) rfl⟩

theorem runLoop_cont_append (endpoint : Endpoint)
    (initial_state : List ChatCompletionMessage) (model : String)
    (xs : List (String × String)) :
    ∀ (h h2 : List ChatCompletionMessage) (ys : List (String × String)),
      runLoop endpoint initial_state model h xs = .cont h2 →
      runLoop endpoint initial_state model h (xs ++ ys) =
        runLoop endpoint initial_state model h2 ys := by
  induction xs with
  | nil =>
    intro h h2 ys hx
    simp only [runLoop] at hx
    cases hx
    rfl
  | cons p rest ih =>
    intro h h2 ys hx
    obtain ⟨input, ed⟩ := p
    simp only [runLoop, List.cons_append] at hx ⊢
    rcases hstep : (step endpoint initial_state model h input ed).1 with
      h3 | _ | ⟨h3, e⟩ <;> rw [hstep] at hx
    · exact ih h3 h2 ys hx
    · exact StepOutcome.noConfusion hx
    · exact StepOutcome.noConfusion hx

/-- Claim C4: after any script of turns that leaves the loop running, one
further "reset" input restores the history to exactly the startup seed —
the four seeded system messages, the first replaced by the general prompt
when one was given — no matter how many turns preceded it. -/
theorem reset_restores_seed (endpoint : Endpoint) (general : Option String)
    (model : String) (inputs : List (String × String))
    (h : List ChatCompletionMessage) (ed : String)
    (hrun : runLoop endpoint (seedMessages general) model
      (seedMessages general) inputs = .cont h) :
    runLoop endpoint (seedMessages general) model (seedMessages general)
      (inputs ++ [("reset", ed)]) = .cont (seedMessages general) := by
  rw [runLoop_cont_append endpoint (seedMessages general) model inputs
    (seedMessages general) h [("reset", ed)] hrun]
  rfl

/-- Witness for `reset_restores_seed`: the empty script, then "reset". -/
theorem reset_restores_seed_witness :
    (runLoop (fun _ => Except.error "net") (seedMessages none)
        "gpt-3.5-turbo" (seedMessages none) [] = .cont (seedMessages none)) ∧
    runLoop (fun _ => Except.error "net") (seedMessages none) "gpt-3.5-turbo"
        (seedMessages none) ([] ++ [("reset", "")]) =
      .cont (seedMessages none) :=
  ⟨rfl, reset_restores_seed (fun _ => Except.error "net") none "gpt-3.5-turbo"
    [] (seedMessages none) "" rfl⟩

theorem userTurn_cont (endpoint : Endpoint)
    (h h2 : List ChatCompletionMessage) (text model : String)
    (out : List String) (sent : List ChatRequest)
    (hu : userTurn endpoint h text model = (.cont h2, out, sent)) :
    ∃ answer, h2 = (h ++ [userMessage text]) ++ [answer] := by
  simp only [userTurn] at hu
  rcases hr : (ask endpoint h text model).result with e | answer <;>
    simp only [hr] at hu
  · simp at hu
  · refine ⟨answer, ?_⟩
    have h1 := congrArg Prod.fst hu
    simp only at h1
    injection h1 with h1
    rw [← h1]
    rfl

/-- Claim C8: in every reachable state of the loop the first four entries of
the history are exactly the startup seed (the fixed system instructions,
the first possibly replaced by the general prompt), and a "reset" iteration
replaces the history wholesale with the cloned startup snapshot. -/
theorem reachable_seed_prefix (endpoint : Endpoint) (general : Option String)
    (model : String) (h : List ChatCompletionMessage) (ed : String)
    (hr : Reachable endpoint general model h) :
    h.take 4 = seedMessages general ∧
    step endpoint (seedMessages general) model h "reset" ed =
      (.cont (seedMessages general), [], []) := by
  have hlen4 : (seedMessages general).length = 4 := rfl
  have htake : h.take 4 = seedMessages general := by
    induction hr with
    | init => exact List.take_of_length_le (le_of_eq hlen4)
    | next h h2 input ed2 out sent prev hstep ih =>
      have hl : 4 ≤ h.length := by
        have := congrArg List.length ih
        simp only [List.length_take, hlen4] at this
        omega
      by_cases hx : input = "exit"
      · simp [step, hx] at hstep
      by_cases hrs : input = "reset"
      · simp [step, hx, hrs] at hstep
        rw [← hstep.1]
        exact List.take_of_length_le (le_of_eq hlen4)
      by_cases hv : input = "v"
      · have hu : userTurn endpoint h ed2 model = (.cont h2, out, sent) := by
          rw [← hstep]
          simp [step, hx, hrs, hv]
        obtain ⟨answer, hh2⟩ :=
          userTurn_cont endpoint h h2 ed2 model out sent hu
        subst hh2
        rw [List.take_append_of_le_length (by simp; omega),
          List.take_append_of_le_length hl]
        exact ih
      · have hu : userTurn endpoint h input model = (.cont h2, out, sent) := by
          rw [← hstep]
          simp [step, hx, hrs, hv]
        obtain ⟨answer, hh2⟩ :=
          userTurn_cont endpoint h h2 input model out sent hu
        subst hh2
        rw [List.take_append_of_le_length (by simp; omega),
          List.take_append_of_le_length hl]
        exact ih
  exact ⟨htake, rfl⟩

/-- Witness for `reachable_seed_prefix`: the seed itself is reachable. -/
theorem reachable_seed_prefix_witness :
    ((seedMessages none).take 4 = seedMessages none ∧
      step (fun _ => Except.error "net") (seedMessages none) "gpt-3.5-turbo"
        (seedMessages none) "reset" "" =
      (.cont (seedMessages none), [], [])) :=
  reachable_seed_prefix (fun _ => Except.error "net") none "gpt-3.5-turbo"
    (seedMessages none) "" Reachable.init

end FerriteTranslator
